import Mathlib

/-
Shallow embedding of the sampled ThreatMapper slice:
  - the secret-scans listing view (query building, result normalization,
    query-string transformations, delete action) from the React source;
  - deepfence_server/handler/settings.go (UpdateGlobalSettings).
Definitions are translated from the source files; the few collaborators that
are not part of the sampled sources (settings store accessors, the table
helpers reading page/sort from the query string) are modelled from the spec
and carry a doc comment saying so.
-/

/-! ## URL search parameters

A URLSearchParams value is an ordered list of key/value entries; getAll,
append, delete and set follow the WHATWG semantics used by the React view:
getAll returns the values of all entries with the key in order, append adds
an entry at the end, delete removes every entry with the key (preserving the
relative order of the rest), and set replaces the value of the first entry
with the key, removes the other entries with the key, or appends when the
key is absent. -/

abbrev SearchParams := List (String × String)

def getAll (sp : SearchParams) (key : String) : List String :=
  (sp.filter (fun p => p.1 == key)).map (fun p => p.2)

def appendParam (sp : SearchParams) (key value : String) : SearchParams :=
  sp ++ [(key, value)]

def deleteParam (sp : SearchParams) (key : String) : SearchParams :=
  sp.filter (fun p => !(p.1 == key))

def setParamAux (key value : String) : SearchParams → SearchParams
  | [] => [(key, value)]
  | p :: rest =>
    if p.1 == key then (key, value) :: deleteParam rest key
    else p :: setParamAux key value rest

def setParam (sp : SearchParams) (key value : String) : SearchParams :=
  setParamAux key value sp

/-! ## Query-string readers of the listing view -/

def getStatusSearch (sp : SearchParams) : List String :=
  (getAll sp "status").map String.toUpper

def getHostsSearch (sp : SearchParams) : List String :=
  getAll sp "hosts"

def getContainersSearch (sp : SearchParams) : List String :=
  getAll sp "containers"

def getContainerImagesSearch (sp : SearchParams) : List String :=
  getAll sp "containerImages"

def getLanguagesSearch (sp : SearchParams) : List String :=
  getAll sp "languages"

def getClustersSearch (sp : SearchParams) : List String :=
  getAll sp "clusters"

/-- Reads a digits-only string as a natural number (the page parameter is
written by the view as the decimal rendering of a page index). -/
def parseNat? (s : String) : Option Nat :=
  if !s.data.isEmpty && s.data.all (fun c => ('0' ≤ c) && (c ≤ '9')) then
    some (s.data.foldl (fun n c => n * 10 + (c.toNat - 48)) 0)
  else none

/-- Modelled from the spec: getPageFromSearchParams (from the table utilities,
not among the sampled sources) reads the page query parameter as a page index
(an integer that is at least 0), defaulting to 0 when absent or unreadable. -/
def getPageFromSearchParams (sp : SearchParams) : Nat :=
  match getAll sp "page" with
  | [] => 0
  | v :: _ => (parseNat? v).getD 0

structure SortOrder where
  sortBy : String
  descending : Bool
deriving Repr, DecidableEq

/-- Modelled from the spec: getOrderFromSearchParams (from the table
utilities, not among the sampled sources) reads the optional single-field
sort spec from the sortby and desc query parameters; no sortby parameter
means no ordering. -/
def getOrderFromSearchParams (sp : SearchParams) : Option SortOrder :=
  match getAll sp "sortby" with
  | [] => none
  | f :: _ => some { sortBy := f, descending := ((getAll sp "desc").headD "") == "true" }

/-! ## The search request structure (SearchSearchScanReq) -/

def PAGE_SIZE : Nat := 15

structure OrderField where
  field_name : String
  descending : Bool
deriving Repr, DecidableEq

structure ContainsFilter where
  filter_in : List (String × List String)
deriving Repr, DecidableEq

structure OrderFilter where
  order_fields : List OrderField
deriving Repr, DecidableEq

structure MatchFilter where
  filter_in : List (String × List String)
deriving Repr, DecidableEq

structure SearchFilterInner where
  contains_filter : ContainsFilter
  order_filter : OrderFilter
  match_filter : MatchFilter
deriving Repr, DecidableEq

structure SearchFilter where
  filters : SearchFilterInner
deriving Repr, DecidableEq

structure Window where
  offset : Nat
  size : Nat
deriving Repr, DecidableEq

structure SearchSearchScanReq where
  node_filters : SearchFilter
  scan_filters : SearchFilter
  window : Window
deriving Repr, DecidableEq

/-- One step of the node_id accumulation in getScans: a facet list is folded
into nodeFilters.node_id only when it is non-empty, concatenating onto the
present value or starting it. -/
def appendIds (cur : Option (List String)) (ids : List String) : Option (List String) :=
  if ids.length > 0 then
    some (match cur with
      | some acc => acc ++ ids
      | none => ids)
  else cur

/-- An optional field of the filter_in object: present fields contribute one
keyed entry, absent fields contribute nothing. -/
def optFilter (key : String) : Option (List String) → List (String × List String)
  | some vs => [(key, vs)]
  | none => []

/-- The request getScans builds for the page query: node filters carry
node_type, the merged node_id facets and the cluster ids; scan filters carry
the upper-cased statuses, the order fields and the language match filter;
the window is page times PAGE_SIZE with size PAGE_SIZE. -/
def getScansRequest (nodeTypes : List String) (sp : SearchParams) : SearchSearchScanReq :=
  let status := getStatusSearch sp
  let scanFilters : List (String × List String) :=
    if status.length > 0 then [("status", status)] else []
  let hosts := getHostsSearch sp
  let containers := getContainersSearch sp
  let images := getContainerImagesSearch sp
  let languages := getLanguagesSearch sp
  let clusters := getClustersSearch sp
  let page := getPageFromSearchParams sp
  let order := getOrderFromSearchParams sp
  let nodeId := appendIds (appendIds (appendIds (appendIds none hosts) containers) images) languages
  let kubernetesClusterId : Option (List String) :=
    if clusters.length > 0 then some clusters else none
  let languageFilters : List (String × List String) :=
    if languages.length > 0 then [("trigger_action", languages)] else []
  let orderFields : List OrderField :=
    match order with
    | some o => [{ field_name := o.sortBy, descending := o.descending }]
    | none => []
  { node_filters := { filters := {
      contains_filter := { filter_in :=
        ("node_type", nodeTypes) ::
          (optFilter "node_id" nodeId ++ optFilter "kubernetes_cluster_id" kubernetesClusterId) },
      order_filter := { order_fields := [] },
      match_filter := { filter_in := [] } } },
    scan_filters := { filters := {
      contains_filter := { filter_in := scanFilters },
      order_filter := { order_fields := orderFields },
      match_filter := { filter_in := languageFilters } } },
    window := { offset := page * PAGE_SIZE, size := PAGE_SIZE } }

/-- The request getScans issues for the count query: the page request with
the window size multiplied by 10. -/
def getScansCountRequest (nodeTypes : List String) (sp : SearchParams) : SearchSearchScanReq :=
  let r := getScansRequest nodeTypes sp
  { r with window := { r.window with size := 10 * r.window.size } }

/-- Looks a field up in a filter_in object (association list). -/
def lookupFilter (l : List (String × List String)) (key : String) : Option (List String) :=
  (l.find? (fun p => p.1 == key)).map (fun p => p.2)

/-! ## Scan rows and normalization -/

structure SeverityCounts where
  critical : Option Nat
  high : Option Nat
  medium : Option Nat
  low : Option Nat
  unknown : Option Nat
deriving Repr, DecidableEq

structure ModelScanInfo where
  scan_id : String
  node_id : String
  node_type : String
  status : String
  updated_at : Nat
  severity_counts : SeverityCounts
deriving Repr, DecidableEq

structure ScanResult extends ModelScanInfo where
  total : Nat
  critical : Nat
  high : Nat
  medium : Nat
  low : Nat
  unknown : Nat
deriving Repr, DecidableEq

/-- The per-row reshaping done inside getScans: each of the five severity
counts defaults to 0 when missing, and total is the sum of the four tiers
critical, high, medium and low (unknown excluded). -/
def normalizeScan (scan : ModelScanInfo) : ScanResult :=
  let critical := scan.severity_counts.critical.getD 0
  let high := scan.severity_counts.high.getD 0
  let medium := scan.severity_counts.medium.getD 0
  let low := scan.severity_counts.low.getD 0
  let unknown := scan.severity_counts.unknown.getD 0
  { toModelScanInfo := scan
    total := critical + high + medium + low
    critical := critical
    high := high
    medium := medium
    low := low
    unknown := unknown }

structure ScansResults where
  scans : List ScanResult
  currentPage : Nat
  totalRows : Nat
deriving Repr, DecidableEq

/-- The result assembly of getScans, as a pure function of the two responses:
on a null page response the initial results (page 1, 0 rows) are returned;
otherwise the rows are normalized, currentPage is the requested page and
totalRows is page times PAGE_SIZE plus the count response. -/
def getScans (sp : SearchParams) (searchResult : Option (List ModelScanInfo))
    (count : Nat) : ScansResults :=
  let page := getPageFromSearchParams sp
  match searchResult with
  | none => { scans := [], currentPage := 1, totalRows := 0 }
  | some rows =>
    { scans := rows.map normalizeScan
      currentPage := page
      totalRows := page * PAGE_SIZE + count }

/-! ## The delete action and its toasts -/

inductive Toast
  | success (msg : String)
  | error (msg : String)
deriving Repr, DecidableEq

/-- Outcome of the delete call as the action sees it: ok, or an ApiError
carrying an optional structured message. -/
inductive DeleteResult
  | ok
  | apiError (message : Option String)
deriving Repr, DecidableEq

/-- The notifications emitted by the delete branch of the route action: an
error toast with the structured message when the call failed with one,
followed unconditionally by the fixed success toast. -/
def deleteScanToasts (result : DeleteResult) : List Toast :=
  (match result with
   | .apiError (some m) => [Toast.error m]
   | _ => []) ++ [Toast.success "Scan deleted successfully"]

/-! ## Query-string transformations of the listing view -/

/-- Checking the Host node-type checkbox: append nodeType=host, then remove
the page entries. -/
def checkHost (sp : SearchParams) : SearchParams :=
  deleteParam (appendParam sp "nodeType" "host") "page"

/-- Unchecking the Host node-type checkbox: read all nodeType entries, delete
them, re-append every value other than host, then remove the page entries. -/
def uncheckHost (sp : SearchParams) : SearchParams :=
  let prevStatuses := getAll sp "nodeType"
  let sp1 := deleteParam sp "nodeType"
  let sp2 := (prevStatuses.filter (fun status => !(status == "host"))).foldl
    (fun acc status => appendParam acc "nodeType" status) sp1
  deleteParam sp2 "page"

/-- The sorting-change transformation of the table: empty sort state deletes
sortby and desc, otherwise both are set from the first sort entry. -/
def onSortingChange (sp : SearchParams) (newSortState : List SortOrder) : SearchParams :=
  match newSortState with
  | [] => deleteParam (deleteParam sp "sortby") "desc"
  | e :: _ =>
    setParam (setParam sp "sortby" e.sortBy) "desc" (if e.descending then "true" else "false")

/-- The pagination-change transformation of the table: set page to the new
page index. -/
def onPaginationChange (sp : SearchParams) (newPageIndex : Nat) : SearchParams :=
  setParam sp "page" (toString newPageIndex)

/-! ## Go net/url: ParseRequestURI

Model of the standard library function used by the settings handler. It
follows url.parse with viaRequest set: control-character and host-character
validation and percent-escape checking are omitted (they only reject more
strings, none of which the theorems below exercise), the ForceQuery flag is
not tracked, and the fragment is not split (ParseRequestURI does not split
it either). The Opa-que field of url.URL, set for a rootless path under a
scheme, is named nonRooted here. -/

structure GoURL where
  Scheme : String
  nonRooted : String
  Host : String
  Path : String
  RawQuery : String
deriving Repr, DecidableEq

inductive ParseResult
  | ok (u : GoURL)
  | error (msg : String)
deriving Repr, DecidableEq

def isSchemeAlpha (c : Char) : Bool :=
  (('a' ≤ c) && (c ≤ 'z')) || (('A' ≤ c) && (c ≤ 'Z'))

def isSchemeOther (c : Char) : Bool :=
  (('0' ≤ c) && (c ≤ '9')) || (c == '+') || (c == '-') || (c == '.')

inductive SchemeResult
  | ok (scheme rest : List Char)
  | error (msg : String)
deriving Repr, DecidableEq

/-- Model of net/url getScheme: scans for a colon preceded only by scheme
characters of which the first is a letter; a colon in first position is an
error, any other break yields an empty scheme and the whole input as rest. -/
def getSchemeAux (full : List Char) : Nat → List Char → SchemeResult
  | _, [] => .ok [] full
  | i, c :: cs =>
    if isSchemeAlpha c then getSchemeAux full (i + 1) cs
    else if isSchemeOther c then
      if i == 0 then .ok [] full else getSchemeAux full (i + 1) cs
    else if c == ':' then
      if i == 0 then .error "missing protocol scheme"
      else .ok (full.take i) (full.drop (i + 1))
    else .ok [] full

def getScheme (rawURL : List Char) : SchemeResult :=
  getSchemeAux rawURL 0 rawURL

/-- Character-list based lower-casing (same result as String.toLower,
written over the character list so that it reduces inside the kernel). -/
def lowerString (s : String) : String :=
  String.mk (s.data.map Char.toLower)

/-- Splits a character list at the first occurrence of sep, which is
dropped; no occurrence yields the whole list and an empty remainder
(strings.Cut). -/
def cutList (sep : Char) : List Char → (List Char × List Char)
  | [] => ([], [])
  | c :: cs =>
    if c == sep then ([], cs)
    else
      let r := cutList sep cs
      (c :: r.1, r.2)

/-- The host part of an authority: everything after the last at sign, or the
whole authority when there is none (userinfo is split off; host validation
is omitted). -/
def authorityHost (authority : List Char) : List Char :=
  let r := authority.foldl
    (fun (acc : List Char × List Char) c =>
      if c == '@' then (acc.1 ++ '@' :: acc.2.reverse, []) else (acc.1, c :: acc.2))
    ([], [])
  r.2.reverse

/-- Model of url.ParseRequestURI: the raw URL is interpreted only as an
absolute URI or an absolute path. An authority (and hence a host) is parsed
only below a non-empty scheme; a rootless remainder under a scheme is kept
whole in nonRooted; a remainder that does not start with a slash and has no
scheme is an error. -/
def ParseRequestURI (rawURL : String) : ParseResult :=
  if rawURL == "" then .error "empty url"
  else if rawURL == "*" then
    .ok { Scheme := "", nonRooted := "", Host := "", Path := "*", RawQuery := "" }
  else
    match getScheme rawURL.data with
    | .error e => .error e
    | .ok schemeChars rest0 =>
      let scheme := lowerString (String.mk schemeChars)
      let cq := cutList '?' rest0
      let rest := cq.1
      let rawQuery := String.mk cq.2
      match rest with
      | [] =>
        if scheme == "" then .error "invalid URI for request"
        else .ok { Scheme := scheme, nonRooted := "", Host := "", Path := "", RawQuery := rawQuery }
      | r :: rs =>
        if r == '/' then
          if scheme == "" then
            .ok { Scheme := scheme, nonRooted := "", Host := "",
                  Path := String.mk (r :: rs), RawQuery := rawQuery }
          else
            match rs with
            | '/' :: afterSlashes =>
              let ar := cutList '/' afterSlashes
              let authority := ar.1
              let path : List Char := match ar.2 with
                | [] => if afterSlashes.contains '/' then '/' :: ar.2 else []
                | _ => '/' :: ar.2
              .ok { Scheme := scheme, nonRooted := "",
                    Host := String.mk (authorityHost authority),
                    Path := String.mk path, RawQuery := rawQuery }
            | _ =>
              .ok { Scheme := scheme, nonRooted := "", Host := "",
                    Path := String.mk (r :: rs), RawQuery := rawQuery }
        else
          if scheme == "" then .error "invalid URI for request"
          else .ok { Scheme := scheme, nonRooted := String.mk (r :: rs), Host := "",
                     Path := "", RawQuery := rawQuery }

/-! ## The settings handler (UpdateGlobalSettings) -/

/-- A JSON value as the decoded request body carries it (numbers decode to
float64 in Go; they are modelled as rationals). -/
inductive JsonValue
  | str (s : String)
  | num (q : ℚ)
  | bool (b : Bool)
  | null
deriving Repr, DecidableEq

/-- A value as the settings store persists it: the URL string, the rounded
integer, or whatever a provisioned row already holds. -/
inductive StoredValue
  | str (s : String)
  | int (z : ℤ)
deriving Repr, DecidableEq

structure SettingValue where
  Label : String
  Value : Option StoredValue
  Description : String
deriving Repr, DecidableEq

structure Setting where
  ID : ℤ
  Key : String
  Value : SettingValue
  IsVisibleOnUi : Bool
deriving Repr, DecidableEq

structure SettingUpdateRequest where
  ID : ℤ
  Key : String
  Value : JsonValue
deriving Repr, DecidableEq

/-- Modelled from the spec: the two setting key constants named by the
handler (model.ConsoleURLSettingKey and
model.InactiveNodesDeleteScanResultsKey live in the model package, which is
not among the sampled sources). -/
def ConsoleURLSettingKey : String := "console_url"

def InactiveNodesDeleteScanResultsKey : String := "inactive_delete_scan_results"

inductive HandlerError
  | validatorError (msg : String)
  | storeError (msg : String)
deriving Repr, DecidableEq

inductive UpdateResult
  | noContent (store : List Setting)
  | failure (e : HandlerError)
deriving Repr, DecidableEq

def isValidatorFailure : UpdateResult → Bool
  | .failure (.validatorError _) => true
  | _ => false

def isFailure : UpdateResult → Bool
  | .failure _ => true
  | .noContent _ => false

/-- Uniqueness of the row ids of a settings store: the invariant that
provisioning establishes and row updates preserve. -/
def uniqueIDs (store : List Setting) : Prop :=
  store.Pairwise (fun a b => a.ID ≠ b.ID)

/-- Modelled from the spec: the required-field struct validation of
SettingUpdateRequest (the model package with the validation tags is not
among the sampled sources; the spec only lists failed struct validation as a
validation-error source, so the model checks that the required id, key and
value are present). -/
def structValid (req : SettingUpdateRequest) : Bool :=
  (!(req.ID == 0)) && (!(req.Key == "")) && (!(req.Value == JsonValue.null))

/-- Modelled from the spec: model.GetSettingByKey returns the stored row
with the given key; per the spec a missing row surfaces as an opaque store
error, not a validation error. -/
def GetSettingByKey (store : List Setting) (key : String) : Except HandlerError Setting :=
  match store.find? (fun s => s.Key == key) with
  | some s => .ok s
  | none => .error (.storeError "setting not found")

/-- Modelled from the spec: Setting.Update persists the new value by
replacing the row whose id matches the setting to be written. -/
def settingUpdate (store : List Setting) (s : Setting) : List Setting :=
  store.map (fun r => if r.ID == s.ID then s else r)

/-- Model of Go fmt.Sprintf with a %s verb applied to the decoded request
value: strings print as themselves, other dynamic types print in the
%!s(type=value) error form (the exact rendering of the number does not
matter: every non-string rendering starts with a percent sign and therefore
never parses as a URL). -/
def sprintfS : JsonValue → String
  | .str s => s
  | .num q => "%!s(float64=" ++ toString q ++ ")"
  | .bool b => "%!s(bool=" ++ (if b then "true" else "false") ++ ")"
  | .null => "%!s(<nil>)"

/-- Model of Go math.Round on the rational carried by the JSON number: the
nearest integer, with ties rounded away from zero. -/
def goRound (q : ℚ) : ℤ :=
  if 0 ≤ q then ⌊q + 1/2⌋ else -⌊-q + 1/2⌋

/-- The rounding the spec describes, written from the words of the spec for
comparison with goRound: nearest integer, ties rounded up. -/
def roundHalfUp (q : ℚ) : ℤ :=
  ⌊q + 1/2⌋

/-- The switch on the stored key inside UpdateGlobalSettings: console_url
values must parse as request URIs and are normalized to scheme://host; the
retention key requires a float64 and stores math.Round of it; any other key
leaves the value variable at its nil zero value. -/
def computeValue (currentSettings : Setting) (req : SettingUpdateRequest) :
    Except HandlerError (Option StoredValue) :=
  if currentSettings.Key == ConsoleURLSettingKey then
    match ParseRequestURI (sprintfS req.Value) with
    | .error _ => .error (.validatorError "Key: SettingUpdateRequest.Value Error:must be url")
    | .ok u => .ok (some (.str (u.Scheme ++ "://" ++ u.Host)))
  else if currentSettings.Key == InactiveNodesDeleteScanResultsKey then
    match req.Value with
    | .num q => .ok (some (.int (goRound q)))
    | _ => .error (.validatorError "Key: SettingUpdateRequest.Value Error:must be integer")
  else .ok none

/-- The settings update handler after decoding: struct validation, lookup of
the current row by the request key, the id check, the per-key value switch,
and the write that preserves label, description and visibility. A failure
leaves the store unwritten; success responds 204 with the new store. -/
def UpdateGlobalSettings (store : List Setting) (req : SettingUpdateRequest) : UpdateResult :=
  if !(structValid req) then .failure (.validatorError "struct validation failed")
  else
    match GetSettingByKey store req.Key with
    | .error e => .failure e
    | .ok currentSettings =>
      if !(req.ID == currentSettings.ID) then
        .failure (.validatorError "Key: SettingUpdateRequest.ID Error:invalid")
      else
        match computeValue currentSettings req with
        | .error e => .failure e
        | .ok value =>
          .noContent (settingUpdate store
            { ID := req.ID
              Key := req.Key
              Value := { Label := currentSettings.Value.Label
                         Value := value
                         Description := currentSettings.Value.Description }
              IsVisibleOnUi := currentSettings.IsVisibleOnUi })

/-! ## Concrete instances used by witnesses and counterexamples -/

def exampleRawScan : ModelScanInfo :=
  { scan_id := "scan-1"
    node_id := "node-1"
    node_type := "host"
    status := "COMPLETE"
    updated_at := 0
    severity_counts :=
      { critical := none, high := some 2, medium := none, low := some 1, unknown := none } }

def consoleRow : Setting :=
  { ID := 1
    Key := "console_url"
    Value := { Label := "Console URL"
               Value := some (.str "https://old.example.com")
               Description := "d" }
    IsVisibleOnUi := true }

def retentionRow : Setting :=
  { ID := 2
    Key := "inactive_delete_scan_results"
    Value := { Label := "Retention", Value := some (.int 30), Description := "days" }
    IsVisibleOnUi := true }

def mysteryRow : Setting :=
  { ID := 3
    Key := "jwt_expiry"
    Value := { Label := "Jwt", Value := some (.int 1), Description := "x" }
    IsVisibleOnUi := false }

def consoleReq : SettingUpdateRequest :=
  { ID := 1, Key := "console_url", Value := .str "https://example.com/path?x=1" }

def parsedConsoleURL : GoURL :=
  { Scheme := "https", nonRooted := "", Host := "example.com", Path := "/path", RawQuery := "x=1" }

def updatedConsoleRow : Setting :=
  { ID := 1
    Key := "console_url"
    Value := { Label := "Console URL"
               Value := some (.str "https://example.com")
               Description := "d" }
    IsVisibleOnUi := true }

def retentionReq : SettingUpdateRequest :=
  { ID := 2, Key := "inactive_delete_scan_results", Value := .num 7.6 }

def retentionBadReq : SettingUpdateRequest :=
  { ID := 2, Key := "inactive_delete_scan_results", Value := .str "abc" }

/-! ## Helper lemmas -/

theorem appendIds_chain (h c i l : List String) :
    appendIds (appendIds (appendIds (appendIds none h) c) i) l
      = if h ++ c ++ i ++ l = [] then none else some (h ++ c ++ i ++ l) := by
  rcases h with _ | ⟨a, h⟩ <;> rcases c with _ | ⟨b, c⟩ <;> rcases i with _ | ⟨d, i⟩ <;>
    rcases l with _ | ⟨e, l⟩ <;> simp [appendIds]

/-- C1: getScans merges the hosts, containers, containerImages and languages
identifier lists, in that order, into the single node_id entry of the node
contains-filter (absent when all four are empty); the languages list is also
placed as the trigger_action entry of the scan match-filter; clusters become
the kubernetes_cluster_id entry of the node contains-filter; and the status
entry of the scan contains-filter holds the status facet values upper-cased. -/
theorem getScans_filter_assembly (nodeTypes : List String) (sp : SearchParams) :
    lookupFilter (getScansRequest nodeTypes sp).node_filters.filters.contains_filter.filter_in
        "node_id"
      = (if getHostsSearch sp ++ getContainersSearch sp ++ getContainerImagesSearch sp
            ++ getLanguagesSearch sp = []
         then none
         else some (getHostsSearch sp ++ getContainersSearch sp ++ getContainerImagesSearch sp
            ++ getLanguagesSearch sp))
    ∧ lookupFilter (getScansRequest nodeTypes sp).scan_filters.filters.match_filter.filter_in
        "trigger_action"
      = (if getLanguagesSearch sp = [] then none else some (getLanguagesSearch sp))
    ∧ lookupFilter (getScansRequest nodeTypes sp).node_filters.filters.contains_filter.filter_in
        "kubernetes_cluster_id"
      = (if getClustersSearch sp = [] then none else some (getClustersSearch sp))
    ∧ lookupFilter (getScansRequest nodeTypes sp).scan_filters.filters.contains_filter.filter_in
        "status"
      = (if getAll sp "status" = [] then none
         else some ((getAll sp "status").map String.toUpper)) := by
  have e1 : (("node_type" : String) == "node_id") = false := by decide
  have e2 : (("kubernetes_cluster_id" : String) == "node_id") = false := by decide
  have e3 : (("node_type" : String) == "kubernetes_cluster_id") = false := by decide
  have e4 : (("node_id" : String) == "kubernetes_cluster_id") = false := by decide
  refine ⟨?_, ?_, ?_, ?_⟩
  · show lookupFilter (("node_type", nodeTypes) :: (optFilter "node_id" _ ++ _)) "node_id" = _
    rw [appendIds_chain]
    by_cases hm : getHostsSearch sp ++ getContainersSearch sp ++ getContainerImagesSearch sp
        ++ getLanguagesSearch sp = []
    · rw [if_pos hm]
      by_cases hc : (getClustersSearch sp).length > 0
      · rw [if_pos hc]
        simp [optFilter, lookupFilter, List.find?, e1, e2]
      · rw [if_neg hc]
        simp [optFilter, lookupFilter, List.find?, e1]
    · rw [if_neg hm]
      simp [optFilter, lookupFilter, List.find?, e1]
  · show lookupFilter
        (if (getLanguagesSearch sp).length > 0
         then [("trigger_action", getLanguagesSearch sp)] else []) "trigger_action" = _
    by_cases hl : getLanguagesSearch sp = []
    · rw [if_neg (by simp [hl]), if_pos hl]
      rfl
    · rw [if_pos (List.length_pos.mpr hl), if_neg hl]
      simp [lookupFilter, List.find?]
  · show lookupFilter (("node_type", nodeTypes) :: (optFilter "node_id" _
        ++ optFilter "kubernetes_cluster_id"
            (if (getClustersSearch sp).length > 0 then some (getClustersSearch sp) else none)))
        "kubernetes_cluster_id" = _
    by_cases hc : getClustersSearch sp = []
    · rw [if_neg (by simp [hc]), if_pos hc]
      rcases appendIds (appendIds (appendIds (appendIds none (getHostsSearch sp))
          (getContainersSearch sp)) (getContainerImagesSearch sp)) (getLanguagesSearch sp)
        with _ | v <;>
        simp [optFilter, lookupFilter, List.find?, e3, e4]
    · rw [if_pos (List.length_pos.mpr hc), if_neg hc]
      rcases appendIds (appendIds (appendIds (appendIds none (getHostsSearch sp))
          (getContainersSearch sp)) (getContainerImagesSearch sp)) (getLanguagesSearch sp)
        with _ | v <;>
        simp [optFilter, lookupFilter, List.find?, e3, e4]
  · show lookupFilter
        (if (getStatusSearch sp).length > 0 then [("status", getStatusSearch sp)] else [])
        "status" = _
    by_cases hs : getAll sp "status" = []
    · rw [if_neg (by simp [getStatusSearch, hs]), if_pos hs]
      rfl
    · rw [if_pos (by simp [getStatusSearch, List.length_pos, hs]), if_neg hs]
      simp [lookupFilter, List.find?, getStatusSearch]

/-- C2: the count request reuses the node and scan filters of the page
request, keeps its offset, and multiplies the window size (PAGE_SIZE = 15)
by 10, to 150; totalRows is computed as page times PAGE_SIZE plus the count
result, so page 2 with count 40 yields 70. -/
theorem getScans_count_window_and_totalRows :
    (∀ (nodeTypes : List String) (sp : SearchParams),
      (getScansCountRequest nodeTypes sp).node_filters = (getScansRequest nodeTypes sp).node_filters
      ∧ (getScansCountRequest nodeTypes sp).scan_filters = (getScansRequest nodeTypes sp).scan_filters
      ∧ (getScansCountRequest nodeTypes sp).window.offset = (getScansRequest nodeTypes sp).window.offset
      ∧ (getScansRequest nodeTypes sp).window.size = PAGE_SIZE
      ∧ (getScansCountRequest nodeTypes sp).window.size = 10 * PAGE_SIZE)
    ∧ (∀ (sp : SearchParams) (rows : List ModelScanInfo) (count : Nat),
      (getScans sp (some rows) count).totalRows = getPageFromSearchParams sp * PAGE_SIZE + count)
    ∧ (getScansCountRequest ["host"] [("page", "2")]).window.size = 150
    ∧ (getScans [("page", "2")] (some []) 40).totalRows = 70 := by
  exact ⟨fun nodeTypes sp => ⟨rfl, rfl, rfl, rfl, rfl⟩, fun sp rows count => rfl, rfl, by decide⟩

/-- C3: normalization defaults every missing severity count to zero and
computes total as critical plus high plus medium plus low, excluding
unknown; on the row with counts critical, medium and unknown missing, high 2
and low 1, it yields 0, 2, 0, 1, 0 and total 3. The Lean function is total,
mirroring the fact that the source expression cannot fail on a row whose
severity_counts object carries the five optional fields. -/
theorem normalizeScan_defaults_and_total :
    (∀ scan : ModelScanInfo,
      (normalizeScan scan).critical = scan.severity_counts.critical.getD 0
      ∧ (normalizeScan scan).high = scan.severity_counts.high.getD 0
      ∧ (normalizeScan scan).medium = scan.severity_counts.medium.getD 0
      ∧ (normalizeScan scan).low = scan.severity_counts.low.getD 0
      ∧ (normalizeScan scan).unknown = scan.severity_counts.unknown.getD 0
      ∧ (normalizeScan scan).total
          = scan.severity_counts.critical.getD 0 + scan.severity_counts.high.getD 0
            + scan.severity_counts.medium.getD 0 + scan.severity_counts.low.getD 0)
    ∧ (normalizeScan exampleRawScan).critical = 0
    ∧ (normalizeScan exampleRawScan).high = 2
    ∧ (normalizeScan exampleRawScan).medium = 0
    ∧ (normalizeScan exampleRawScan).low = 1
    ∧ (normalizeScan exampleRawScan).unknown = 0
    ∧ (normalizeScan exampleRawScan).total = 3 := by
  exact ⟨fun scan => ⟨rfl, rfl, rfl, rfl, rfl, rfl⟩, rfl, rfl, rfl, rfl, rfl, rfl⟩

/-- C8: the delete branch of the route action emits the fixed success toast
on every outcome, including failed deletes, and emits an error toast exactly
when the failure carries a structured message (which is the message shown). -/
theorem deleteAction_toasts :
    ∀ result : DeleteResult,
      Toast.success "Scan deleted successfully" ∈ deleteScanToasts result
      ∧ (∀ m : String, Toast.error m ∈ deleteScanToasts result ↔ result = .apiError (some m)) := by
  intro result
  constructor
  · rcases result with _ | ⟨_ | m⟩ <;> simp [deleteScanToasts]
  · intro m
    rcases result with _ | ⟨_ | m2⟩ <;> simp [deleteScanToasts, eq_comm]

/-! ## Search-parameter lemmas -/

theorem getAll_cons (p : String × String) (sp : SearchParams) (k : String) :
    getAll (p :: sp) k = if p.1 == k then p.2 :: getAll sp k else getAll sp k := by
  by_cases hp : p.1 == k <;> simp [getAll, List.filter_cons, hp]

theorem deleteParam_cons (p : String × String) (sp : SearchParams) (k : String) :
    deleteParam (p :: sp) k = if p.1 == k then deleteParam sp k else p :: deleteParam sp k := by
  by_cases hp : p.1 == k <;> simp [deleteParam, List.filter_cons, hp]

theorem getAll_append (sp sp2 : SearchParams) (k : String) :
    getAll (sp ++ sp2) k = getAll sp k ++ getAll sp2 k := by
  simp [getAll, List.filter_append]

theorem deleteParam_append (sp sp2 : SearchParams) (k : String) :
    deleteParam (sp ++ sp2) k = deleteParam sp k ++ deleteParam sp2 k := by
  simp [deleteParam, List.filter_append]

theorem getAll_deleteParam_self (sp : SearchParams) (k : String) :
    getAll (deleteParam sp k) k = [] := by
  induction sp with
  | nil => rfl
  | cons p rest ih =>
    by_cases hp : p.1 == k <;> simp [getAll_cons, deleteParam_cons, hp, ih]

theorem getAll_deleteParam_ne (sp : SearchParams) {k k2 : String} (h : k ≠ k2) :
    getAll (deleteParam sp k2) k = getAll sp k := by
  induction sp with
  | nil => rfl
  | cons p rest ih =>
    by_cases hp : p.1 = k
    · simp [getAll_cons, deleteParam_cons, hp, h, ih]
    · by_cases hp2 : p.1 == k2 <;> simp [getAll_cons, deleteParam_cons, hp, hp2, ih]

theorem deleteParam_of_getAll_eq_nil : ∀ {sp : SearchParams} {k : String},
    getAll sp k = [] → deleteParam sp k = sp := by
  intro sp k
  induction sp with
  | nil => intro _; rfl
  | cons p rest ih =>
    intro hnil
    by_cases hp : p.1 == k
    · simp [getAll_cons, hp] at hnil
    · simp [getAll_cons, hp] at hnil
      simp [deleteParam_cons, hp, ih hnil]

theorem getAll_setParam_self (sp : SearchParams) (k v : String) :
    getAll (setParam sp k v) k = [v] := by
  unfold setParam
  induction sp with
  | nil => simp [setParamAux, getAll_cons, getAll]
  | cons p rest ih =>
    by_cases hp : p.1 == k
    · simp [setParamAux, hp, getAll_cons, getAll_deleteParam_self]
    · simp [setParamAux, hp, getAll_cons, ih]

theorem getAll_setParam_ne (sp : SearchParams) {k k2 : String} (v : String) (h : k ≠ k2) :
    getAll (setParam sp k2 v) k = getAll sp k := by
  unfold setParam
  have hk : (k2 == k) = false := by simp [Ne.symm h]
  induction sp with
  | nil => simp [setParamAux, getAll_cons, hk]
  | cons p rest ih =>
    by_cases hp : p.1 == k2
    · have hpk : (p.1 == k) = false := by
        have := beq_iff_eq.mp hp
        simp [this, Ne.symm h]
      simp [setParamAux, hp, getAll_cons, hk, hpk, getAll_deleteParam_ne rest h]
    · simp [setParamAux, hp, getAll_cons, ih]

/-- C9 counterexample: on the query string nodeType=container, hosts=h1 the
check-then-uncheck round trip of the Host checkbox does not return the query
string with page entries removed: the surviving nodeType entry is re-appended
at the end, so the entry order (and hence the serialized query string)
changes. -/
theorem hostToggle_not_plain_roundTrip :
    uncheckHost (checkHost [("nodeType", "container"), ("hosts", "h1")])
      ≠ deleteParam [("nodeType", "container"), ("hosts", "h1")] "page"
    ∧ uncheckHost (checkHost [("nodeType", "container"), ("hosts", "h1")])
      = [("hosts", "h1"), ("nodeType", "container")]
    ∧ deleteParam [("nodeType", "container"), ("hosts", "h1")] "page"
      = [("nodeType", "container"), ("hosts", "h1")] := by
  refine ⟨by decide, by decide, by decide⟩

/-- C9: amended — on a query string with no nodeType entry, checking then
unchecking the Host node-type filter returns the query string with all page
entries removed, the page removal happening on the first toggle only (the
checked string already has no page entry); sorting-only transformations
leave the page entries untouched and the page transformation sets the page
entry rather than removing it. On query strings that already carry nodeType
entries the round trip additionally moves those entries to the end (and
drops pre-existing nodeType=host entries), as the counterexample shows. -/
theorem hostToggle_roundTrip (sp : SearchParams) (h : getAll sp "nodeType" = []) :
    uncheckHost (checkHost sp) = deleteParam sp "page"
    ∧ getAll (checkHost sp) "page" = []
    ∧ (∀ st, getAll (onSortingChange sp st) "page" = getAll sp "page")
    ∧ (∀ n, getAll (onPaginationChange sp n) "page" = [toString n]) := by
  have hck : checkHost sp = deleteParam sp "page" ++ [("nodeType", "host")] := by
    unfold checkHost appendParam
    rw [deleteParam_append]
    rfl
  refine ⟨?_, ?_, ?_, ?_⟩
  · rw [hck]
    have h1 : getAll (deleteParam sp "page" ++ [("nodeType", "host")]) "nodeType"
        = ["host"] := by
      rw [getAll_append, getAll_deleteParam_ne sp (by decide), h]
      rfl
    have h2 : deleteParam (deleteParam sp "page" ++ [("nodeType", "host")]) "nodeType"
        = deleteParam sp "page" := by
      rw [deleteParam_append,
        deleteParam_of_getAll_eq_nil (by rw [getAll_deleteParam_ne sp (by decide)]; exact h)]
      have he : deleteParam [("nodeType", "host")] "nodeType" = [] := rfl
      rw [he, List.append_nil]
    simp only [uncheckHost, h1, h2]
    have h3 : (["host"].filter fun status => !(status == "host")) = [] := rfl
    rw [h3]
    simp only [List.foldl_nil]
    exact deleteParam_of_getAll_eq_nil (getAll_deleteParam_self sp "page")
  · rw [hck, getAll_append, getAll_deleteParam_self]
    rfl
  · intro st
    match st with
    | [] =>
      show getAll (deleteParam (deleteParam sp "sortby") "desc") "page" = getAll sp "page"
      rw [getAll_deleteParam_ne _ (by decide), getAll_deleteParam_ne _ (by decide)]
    | e :: _ =>
      show getAll (setParam (setParam sp "sortby" e.sortBy) "desc" _) "page" = getAll sp "page"
      rw [getAll_setParam_ne _ _ (by decide), getAll_setParam_ne _ _ (by decide)]
  · intro n
    exact getAll_setParam_self sp "page" (toString n)

/-- C9 witness: the amended round trip evaluated on the concrete query
string hosts=h1, page=1 (no nodeType entry). -/
theorem hostToggle_roundTrip_witness :
    uncheckHost (checkHost [("hosts", "h1"), ("page", "1")])
      = deleteParam [("hosts", "h1"), ("page", "1")] "page"
    ∧ getAll (checkHost [("hosts", "h1"), ("page", "1")]) "page" = [] :=
  ⟨(hostToggle_roundTrip [("hosts", "h1"), ("page", "1")] (by decide)).1,
   (hostToggle_roundTrip [("hosts", "h1"), ("page", "1")] (by decide)).2.1⟩

/-! ## Settings-handler lemmas -/

theorem GetSettingByKey_ok {store : List Setting} {key : String} {s : Setting}
    (h : GetSettingByKey store key = .ok s) : s ∈ store ∧ s.Key = key := by
  unfold GetSettingByKey at h
  cases hf : store.find? (fun r => r.Key == key) with
  | none => rw [hf] at h; cases h
  | some t =>
    rw [hf] at h
    cases h
    exact ⟨List.mem_of_find?_eq_some hf, by simpa using List.find?_some hf⟩

theorem eq_of_mem_of_id_eq : ∀ {store : List Setting}, uniqueIDs store →
    ∀ {a b : Setting}, a ∈ store → b ∈ store → a.ID = b.ID → a = b := by
  intro store
  induction store with
  | nil => intro _ a b ha; cases ha
  | cons s rest ih =>
    intro hu a b ha hb h
    rcases List.pairwise_cons.mp hu with ⟨hs, hrest⟩
    rcases List.mem_cons.mp ha with rfl | ha2
    · rcases List.mem_cons.mp hb with rfl | hb2
      · rfl
      · exact absurd h (hs _ hb2)
    · rcases List.mem_cons.mp hb with rfl | hb2
      · exact absurd h.symm (hs _ ha2)
      · exact ih hrest ha2 hb2 h

theorem settingUpdate_mem_id {store : List Setting} {snew r2 : Setting}
    (hr2 : r2 ∈ settingUpdate store snew) (hid2 : r2.ID = snew.ID) : r2 = snew := by
  unfold settingUpdate at hr2
  obtain ⟨s, hs, hes⟩ := List.mem_map.mp hr2
  by_cases hsid : s.ID = snew.ID
  · rw [if_pos (by simp [hsid])] at hes
    exact hes.symm
  · rw [if_neg (by simp [hsid])] at hes
    rw [← hes] at hid2
    exact absurd hid2 hsid

/-- C4 counterexample: with a store holding only the console-URL row (id 1)
and a request for id 1 with a key matching no stored row, the handler fails
with the store lookup error, not a validation error. -/
theorem updateSettings_missing_key_not_validator :
    consoleRow.ID = 1 ∧ ¬ consoleRow.Key = "retention_key_typo"
    ∧ UpdateGlobalSettings [consoleRow]
        { ID := 1, Key := "retention_key_typo", Value := .str "x" }
      = .failure (.storeError "setting not found")
    ∧ isValidatorFailure (UpdateGlobalSettings [consoleRow]
        { ID := 1, Key := "retention_key_typo", Value := .str "x" }) = false := by
  exact ⟨rfl, by decide, by decide, by decide⟩

/-- C4: amended — for every settings update request whose key differs from
the stored key of the row identified by the request id (in a store with
unique row ids), the handler fails and performs no write (a failure result
carries no new store); the failure is a validation error whenever some
stored row carries the request key, and otherwise it is the store lookup
error, as the counterexample shows. -/
theorem updateSettings_key_mismatch_no_write (store : List Setting) (req : SettingUpdateRequest)
    (r : Setting) (hu : uniqueIDs store) (hr : r ∈ store) (hid : r.ID = req.ID)
    (hkey : ¬ r.Key = req.Key) :
    isFailure (UpdateGlobalSettings store req) = true
    ∧ (∀ c ∈ store, c.Key = req.Key →
        isValidatorFailure (UpdateGlobalSettings store req) = true) := by
  cases hv : structValid req with
  | false =>
    constructor
    · simp [UpdateGlobalSettings, hv, isFailure]
    · intro c hc hck
      simp [UpdateGlobalSettings, hv, isValidatorFailure]
  | true =>
    cases hfind : GetSettingByKey store req.Key with
    | error e =>
      constructor
      · simp [UpdateGlobalSettings, hv, hfind, isFailure]
      · intro c hc hck
        exfalso
        unfold GetSettingByKey at hfind
        cases hf : store.find? (fun s => s.Key == req.Key) with
        | some t => rw [hf] at hfind; cases hfind
        | none =>
          have hnone := List.find?_eq_none.mp hf c hc
          simp [hck] at hnone
    | ok cur =>
      obtain ⟨hcmem, hckey⟩ := GetSettingByKey_ok hfind
      have hne : ¬ req.ID = cur.ID := by
        intro he
        apply hkey
        have hrc : r = cur := eq_of_mem_of_id_eq hu hr hcmem (by rw [hid, he])
        rw [hrc, hckey]
      have hbe : (req.ID == cur.ID) = false := by simp [hne]
      constructor
      · simp [UpdateGlobalSettings, hv, hfind, hbe, isFailure]
      · intro c hc hck
        simp [UpdateGlobalSettings, hv, hfind, hbe, isValidatorFailure]

/-- C4 witness: store with the console-URL row (id 1) and the retention row
(id 2); the request pairs id 1 with the retention key, so the handler fails,
and with a validation error since the retention key is stored (on row 2). -/
theorem updateSettings_key_mismatch_no_write_witness :
    isFailure (UpdateGlobalSettings [consoleRow, retentionRow]
      { ID := 1, Key := "inactive_delete_scan_results", Value := .num 5 }) = true
    ∧ isValidatorFailure (UpdateGlobalSettings [consoleRow, retentionRow]
      { ID := 1, Key := "inactive_delete_scan_results", Value := .num 5 }) = true :=
  ⟨(updateSettings_key_mismatch_no_write [consoleRow, retentionRow] _ consoleRow
      (by simp [uniqueIDs, consoleRow, retentionRow]) (by simp) rfl (by decide)).1,
   (updateSettings_key_mismatch_no_write [consoleRow, retentionRow] _ consoleRow
      (by simp [uniqueIDs, consoleRow, retentionRow]) (by simp) rfl (by decide)).2
     retentionRow (by simp) rfl⟩

/-- C5 counterexample: the rooted path "/path" has neither scheme nor host,
yet url.ParseRequestURI accepts it (it parses absolute paths too), so the
handler does not fail validation: it stores the degenerate value "://" and
responds no-content. -/
theorem updateSettings_consoleURL_rootedPath_accepted :
    ParseRequestURI "/path" = .ok
      { Scheme := "", nonRooted := "", Host := "", Path := "/path", RawQuery := "" }
    ∧ UpdateGlobalSettings [consoleRow]
        { ID := 1, Key := "console_url", Value := .str "/path" }
      = .noContent [{ ID := 1,
                      Key := "console_url",
                      Value := { Label := "Console URL", Value := some (.str "://"),
                                 Description := "d" },
                      IsVisibleOnUi := true }] := by
  exact ⟨by decide, by decide⟩

/-- C5: amended — for the console-URL key, a value whose string form is
rejected by url.ParseRequestURI (neither an absolute URI nor a rooted path)
fails validation with the must-be-url error, and an accepted value is stored
normalized to scheme://host with path and query discarded; in particular
https://example.com/path?x=1 is stored as https://example.com, while a
rooted path such as /path is accepted and stored as "://" (the
counterexample), since ParseRequestURI also accepts absolute paths. -/
theorem updateSettings_consoleURL (store : List Setting) (req : SettingUpdateRequest)
    (cur : Setting)
    (hv : structValid req = true)
    (hfind : GetSettingByKey store req.Key = .ok cur)
    (hid : req.ID = cur.ID)
    (hkey : cur.Key = ConsoleURLSettingKey) :
    (∀ e, ParseRequestURI (sprintfS req.Value) = .error e →
      UpdateGlobalSettings store req
        = .failure (.validatorError "Key: SettingUpdateRequest.Value Error:must be url"))
    ∧ (∀ u, ParseRequestURI (sprintfS req.Value) = .ok u →
      UpdateGlobalSettings store req
        = .noContent (settingUpdate store
            { ID := req.ID
              Key := req.Key
              Value := { Label := cur.Value.Label
                         Value := some (.str (u.Scheme ++ "://" ++ u.Host))
                         Description := cur.Value.Description }
              IsVisibleOnUi := cur.IsVisibleOnUi })) := by
  constructor
  · intro e hx
    simp [UpdateGlobalSettings, hv, hfind, hid, computeValue, hkey, hx]
  · intro u hx
    simp [UpdateGlobalSettings, hv, hfind, hid, computeValue, hkey, hx]

/-- C5 witness: the valid input https://example.com/path?x=1 parses with
scheme https and host example.com and is stored as https://example.com. -/
theorem updateSettings_consoleURL_witness :
    ParseRequestURI "https://example.com/path?x=1" = .ok parsedConsoleURL
    ∧ UpdateGlobalSettings [consoleRow] consoleReq = .noContent [updatedConsoleRow] := by
  constructor
  · decide
  · rw [(updateSettings_consoleURL [consoleRow] consoleReq consoleRow rfl rfl rfl rfl).2
        parsedConsoleURL (by decide)]
    decide

/-- C6 counterexample: math.Round rounds ties away from zero, not half-up:
on the numeric value -7.5 the code stores -8 where round-half-up gives -7. -/
theorem updateSettings_retention_tie_rounds_away :
    goRound (-7.5 : ℚ) = -8 ∧ roundHalfUp (-7.5 : ℚ) = -7
    ∧ UpdateGlobalSettings [retentionRow]
        { ID := 2, Key := "inactive_delete_scan_results", Value := .num (-7.5 : ℚ) }
      = .noContent [{ ID := 2,
                      Key := "inactive_delete_scan_results",
                      Value := { Label := "Retention", Value := some (.int (-8)),
                                 Description := "days" },
                      IsVisibleOnUi := true }] := by
  have hm8 : goRound (-7.5 : ℚ) = -8 := by
    unfold goRound
    rw [if_neg (by norm_num)]
    norm_num
  have hm7 : roundHalfUp (-7.5 : ℚ) = -7 := by
    unfold roundHalfUp
    norm_num
  refine ⟨hm8, hm7, ?_⟩
  have hrfl : UpdateGlobalSettings [retentionRow]
      { ID := 2, Key := "inactive_delete_scan_results", Value := .num (-7.5 : ℚ) }
      = .noContent [{ ID := 2,
                      Key := "inactive_delete_scan_results",
                      Value := { Label := "Retention",
                                 Value := some (.int (goRound (-7.5 : ℚ))),
                                 Description := "days" },
                      IsVisibleOnUi := true }] := rfl
  rw [hm8] at hrfl
  exact hrfl

/-- C6: amended — for the inactive-node-retention key, a non-numeric value
fails validation with the must-be-integer error, and a numeric value q is
stored as the integer goRound q, the nearest integer with ties rounded away
from zero (math.Round); this agrees with round-half-up on all non-negative
values (third conjunct), but differs on negative ties, as the counterexample
shows; 7.6 is still stored as 8 and "abc" still fails validation (witness). -/
theorem updateSettings_retention (store : List Setting) (req : SettingUpdateRequest)
    (cur : Setting)
    (hv : structValid req = true)
    (hfind : GetSettingByKey store req.Key = .ok cur)
    (hid : req.ID = cur.ID)
    (hkey : cur.Key = InactiveNodesDeleteScanResultsKey) :
    (∀ q : ℚ, req.Value = .num q →
      UpdateGlobalSettings store req
        = .noContent (settingUpdate store
            { ID := req.ID
              Key := req.Key
              Value := { Label := cur.Value.Label
                         Value := some (.int (goRound q))
                         Description := cur.Value.Description }
              IsVisibleOnUi := cur.IsVisibleOnUi }))
    ∧ ((∀ q : ℚ, ¬ req.Value = .num q) →
      UpdateGlobalSettings store req
        = .failure (.validatorError "Key: SettingUpdateRequest.Value Error:must be integer"))
    ∧ (∀ q : ℚ, 0 ≤ q → goRound q = roundHalfUp q) := by
  have hkeys : ¬ InactiveNodesDeleteScanResultsKey = ConsoleURLSettingKey := by decide
  refine ⟨?_, ?_, ?_⟩
  · intro q hq
    simp [UpdateGlobalSettings, hv, hfind, hid, computeValue, hkey, hkeys, hq]
  · intro hnq
    cases hval : req.Value with
    | str s => simp [UpdateGlobalSettings, hv, hfind, hid, computeValue, hkey, hkeys, hval]
    | num q => exact absurd hval (hnq q)
    | bool b => simp [UpdateGlobalSettings, hv, hfind, hid, computeValue, hkey, hkeys, hval]
    | null => simp [UpdateGlobalSettings, hv, hfind, hid, computeValue, hkey, hkeys, hval]
  · intro q hq0
    simp [goRound, roundHalfUp, hq0]

/-- C6 witness: 7.6 is stored as 8 on the retention row, and the string
value "abc" fails validation with the must-be-integer error. -/
theorem updateSettings_retention_witness :
    UpdateGlobalSettings [retentionRow] retentionReq
      = .noContent [{ ID := 2,
                      Key := "inactive_delete_scan_results",
                      Value := { Label := "Retention", Value := some (.int 8),
                                 Description := "days" },
                      IsVisibleOnUi := true }]
    ∧ UpdateGlobalSettings [retentionRow] retentionBadReq
      = .failure (.validatorError "Key: SettingUpdateRequest.Value Error:must be integer") := by
  constructor
  · have h8 : goRound (7.6 : ℚ) = 8 := by
      unfold goRound
      rw [if_pos (by norm_num)]
      norm_num
    rw [(updateSettings_retention [retentionRow] retentionReq retentionRow rfl rfl rfl rfl).1
        (7.6 : ℚ) rfl, h8]
    decide
  · exact (updateSettings_retention [retentionRow] retentionBadReq retentionRow rfl rfl rfl
      rfl).2.1 (fun q hq => by simp [retentionBadReq] at hq)

/-- C7: on every successful update (in a store with unique row ids), the row
written for the request id keeps the label, description and UI-visibility
flag of the previously stored row with that id; only the value field
changes. -/
theorem updateSettings_preserves_metadata (store : List Setting) (req : SettingUpdateRequest)
    (store2 : List Setting) (r r2 : Setting) (hu : uniqueIDs store)
    (h : UpdateGlobalSettings store req = .noContent store2)
    (hr : r ∈ store) (hrid : r.ID = req.ID)
    (hr2 : r2 ∈ store2) (hrid2 : r2.ID = req.ID) :
    r2.Value.Label = r.Value.Label
    ∧ r2.Value.Description = r.Value.Description
    ∧ r2.IsVisibleOnUi = r.IsVisibleOnUi := by
  unfold UpdateGlobalSettings at h
  cases hv : structValid req with
  | false => simp [hv] at h
  | true =>
    simp only [hv, Bool.not_true, Bool.false_eq_true, if_false] at h
    cases hfind : GetSettingByKey store req.Key with
    | error e => simp [hfind] at h
    | ok cur =>
      obtain ⟨hcmem, hckey⟩ := GetSettingByKey_ok hfind
      simp only [hfind] at h
      by_cases hide : req.ID = cur.ID
      · have hbe : (req.ID == cur.ID) = true := by simp [hide]
        simp only [hbe, Bool.not_true, Bool.false_eq_true, if_false] at h
        cases hcv : computeValue cur req with
        | error e => simp [hcv] at h
        | ok v =>
          simp only [hcv] at h
          injection h with h2
          subst h2
          have hr2new := settingUpdate_mem_id hr2 hrid2
          have hrc : r = cur := eq_of_mem_of_id_eq hu hr hcmem (by rw [hrid, hide])
          rw [hr2new, hrc]
          exact ⟨rfl, rfl, rfl⟩
      · have hbe : (req.ID == cur.ID) = false := by simp [hide]
        simp [hbe] at h

/-- C7 witness: updating the console-URL row of the two-row store leaves the
label, the description and the visibility flag of the row unchanged. -/
theorem updateSettings_preserves_metadata_witness :
    updatedConsoleRow.Value.Label = consoleRow.Value.Label
    ∧ updatedConsoleRow.Value.Description = consoleRow.Value.Description
    ∧ updatedConsoleRow.IsVisibleOnUi = consoleRow.IsVisibleOnUi :=
  updateSettings_preserves_metadata [consoleRow, retentionRow] consoleReq
    [updatedConsoleRow, retentionRow] consoleRow updatedConsoleRow
    (by simp [uniqueIDs, consoleRow, retentionRow])
    (by decide) (by simp) rfl (by simp) rfl

/-- C10: for every request that passes struct validation and the id check
but whose stored row has a key that is neither the console-URL key nor the
inactive-node-retention key, the switch matches no case, the value variable
keeps its nil zero value, and the handler persists a row whose value is nil
and responds no-content. -/
theorem updateSettings_unknown_key_stores_nil (store : List Setting) (req : SettingUpdateRequest)
    (cur : Setting)
    (hv : structValid req = true)
    (hfind : GetSettingByKey store req.Key = .ok cur)
    (hid : req.ID = cur.ID)
    (h1 : ¬ cur.Key = ConsoleURLSettingKey)
    (h2 : ¬ cur.Key = InactiveNodesDeleteScanResultsKey) :
    UpdateGlobalSettings store req
      = .noContent (settingUpdate store
          { ID := req.ID
            Key := req.Key
            Value := { Label := cur.Value.Label
                       Value := none
                       Description := cur.Value.Description }
            IsVisibleOnUi := cur.IsVisibleOnUi }) := by
  simp [UpdateGlobalSettings, hv, hfind, hid, computeValue, h1, h2]

/-- C10 witness: a store whose only row (id 3) carries the key jwt_expiry;
the matching update request succeeds with no-content and the persisted row
holds a nil value in place of the submitted string. -/
theorem updateSettings_unknown_key_stores_nil_witness :
    UpdateGlobalSettings [mysteryRow] { ID := 3, Key := "jwt_expiry", Value := .str "x" }
      = .noContent [{ ID := 3,
                      Key := "jwt_expiry",
                      Value := { Label := "Jwt", Value := none, Description := "x" },
                      IsVisibleOnUi := false }] := by
  rw [updateSettings_unknown_key_stores_nil [mysteryRow]
      { ID := 3, Key := "jwt_expiry", Value := .str "x" } mysteryRow rfl rfl rfl
      (by decide) (by decide)]
  decide
